import Mathlib

/-!
Shallow embedding of the device/resource lifecycle core of the learn-vulkan
repository (src/src/Vulkan.cpp, src/include/Vulkan.hpp, with the sibling
snapshots src/main.cpp and src/test.cpp as corroborating sources).

All machine integers of the C++ source are modelled as `Nat` with explicit
reduction modulo 2^32 at every operation where the C++ program performs
32-bit unsigned arithmetic, and as `Int` obtained through `toInt32` where
the source stores a value in a C `int`.
-/

/-- The modulus 2^32 of 32-bit unsigned arithmetic. -/
def U32MOD : Nat := 4294967296

/-- Reduce a natural number to its 32-bit unsigned value. -/
def u32 (x : Nat) : Nat := x % U32MOD

/-- Unsigned 32-bit subtraction `a - b` with wraparound, as in C. -/
def sub32 (a b : Nat) : Nat := (a + (U32MOD - b % U32MOD)) % U32MOD

/-- Bitwise 32-bit complement `~x`, as applied to a C `uint32_t`. -/
def not32 (x : Nat) : Nat := (U32MOD - 1) - x % U32MOD

/-- Interpret a 32-bit pattern as a C `int` (two's complement), as happens
when an unsigned 32-bit value is converted back to `int` (well defined,
modular, since C++20). -/
def toInt32 (n : Nat) : Int :=
  if n % U32MOD < 2147483648 then ((n % U32MOD : Nat) : Int)
  else ((n % U32MOD : Nat) : Int) - (U32MOD : Int)

/-! ## Sub-allocator (src/src/Vulkan.cpp, `allocate_memory` and helpers) -/

/-- One entry of `VkPhysicalDeviceMemoryProperties::memoryTypes`. -/
structure MemoryType where
  propertyFlags : Nat
deriving DecidableEq

/-- The per-buffer data consumed by `allocate_memory`: the buffer handle
(modelled as an identifier) together with the `VkMemoryRequirements`
reported for it (`size`, `alignment`, `memoryTypeBits`). -/
structure BufferReq where
  buffer         : Nat
  size           : Nat
  alignment      : Nat
  memoryTypeBits : Nat
deriving DecidableEq

/-- Model of `struct BufferInfo` (src/src/Vulkan.cpp:1432). `offset` is
set to zero by the aggregate record construction at line 1473. -/
structure BufferInfo where
  buffer    : Nat
  offset    : Nat := 0
  size      : Nat
  alignment : Nat
deriving DecidableEq

/-- Result of a successful `allocate_memory` call: the allocation size and
memory type index passed to `vkAllocateMemory`, and the packed order with
the offset at which each buffer is bound by `vkBindBufferMemory`. -/
structure PackedAllocation where
  totalSize    : Nat
  memTypeIndex : Nat
  perBuffer    : List BufferInfo
deriving DecidableEq

/-- The loop of src/src/Vulkan.cpp:1449-1462: fold `&=` of every buffer's
`memoryTypeBits` into the accumulator (initially `0xFFFFFFFF`), failing as
soon as the accumulator becomes zero. -/
def common_mem_type_loop (acc : Nat) : List BufferReq → Except String Nat
  | [] => .ok acc
  | r :: rest =>
    let acc2 := acc &&& r.memoryTypeBits
    if acc2 = 0 then .error "failed to find common memory type"
    else common_mem_type_loop acc2 rest

/-- The pure value of the common-mask fold, used to state theorems. -/
def common_memory_type (reqs : List BufferReq) : Nat :=
  reqs.foldl (fun acc r => acc &&& r.memoryTypeBits) 0xFFFFFFFF

/-- Loop body of `get_memory_type_index` (src/src/Vulkan.cpp:1382-1391),
starting at index `i`: return the first index whose bit is set in
`supported_types` and whose property flags contain `required_properties`.
`supported_types & (1 << i)` is modelled as `supported_types &&& 2^i`
(the C++ shift is defined for the index range `i < 32` guaranteed by
`VK_MAX_MEMORY_TYPES`). -/
def get_memory_type_index_from (supported_types required_properties : Nat)
    (i : Nat) : List MemoryType → Except String Nat
  | [] => .error "failed to get memory type"
  | t :: rest =>
    if supported_types &&& 2 ^ i ≠ 0 ∧
       t.propertyFlags &&& required_properties = required_properties
    then .ok i
    else get_memory_type_index_from supported_types required_properties (i + 1) rest

/-- Model of `get_memory_type_index` (src/src/Vulkan.cpp:1382). -/
def get_memory_type_index (mem_types : List MemoryType)
    (supported_types required_properties : Nat) : Except String Nat :=
  get_memory_type_index_from supported_types required_properties 0 mem_types

/-- The sort comparator of src/src/Vulkan.cpp:1481-1487 (descending by
alignment, ties descending by size). -/
def buffer_cmp (l r : BufferInfo) : Bool :=
  if l.alignment = r.alignment then decide (l.size > r.size)
  else decide (l.alignment > r.alignment)

/-- The non-strict order induced by `buffer_cmp`, used to run the sort:
`l` may precede `r` when the strict comparator does not order `r` first.
`std::sort` guarantees exactly a permutation ordered this way; the stable
insertion sort below realizes one such outcome. -/
def buffer_le (l r : BufferInfo) : Prop := buffer_cmp r l = false

instance : DecidableRel buffer_le := fun l r => by
  unfold buffer_le; infer_instance

/-- The offset computation of src/src/Vulkan.cpp:1492, in 32-bit unsigned
arithmetic exactly as the C expression
`(prev.offset + prev.size + cur.alignment - 1) & ~(cur.alignment - 1)`. -/
def align_offset (prev_offset prev_size alignment : Nat) : Nat :=
  sub32 (u32 (u32 (prev_offset + prev_size) + alignment)) 1 &&&
    not32 (sub32 alignment 1)

/-- The offset-assignment loop of src/src/Vulkan.cpp:1490-1492 for the
elements after the first, carrying the previous element's offset and size. -/
def assign_offsets_from (prev_offset prev_size : Nat) :
    List BufferInfo → List BufferInfo
  | [] => []
  | b :: rest =>
    let o := align_offset prev_offset prev_size b.alignment
    { b with offset := o } :: assign_offsets_from o b.size rest

/-- Offsets of the whole sorted sequence: the first buffer keeps its
zero offset, the rest are assigned by the loop. -/
def assign_offsets : List BufferInfo → List BufferInfo
  | [] => []
  | b :: rest => b :: assign_offsets_from b.offset b.size rest

/-- Convert one memory request to the `BufferInfo` record built at
src/src/Vulkan.cpp:1471-1479; `size` and `alignment` are narrowed to
`uint32_t` by the casts at lines 1476-1477. -/
def to_buffer_info (r : BufferReq) : BufferInfo :=
  { buffer := r.buffer, size := u32 r.size, alignment := u32 r.alignment }

/-- Model of `allocate_memory` (src/src/Vulkan.cpp:1440-1520), as a pure function
from the physical device's memory types, the required property flags, and
the buffers' memory requirements to either a thrown error message or the
packed allocation it creates. The empty-sequence case reads
`buf_infos[count - 1]` out of bounds in the source (undefined behavior)
and is mapped to a distinguished error. -/
def allocate_memory (mem_types : List MemoryType)
    (memory_properties : Nat) (reqs : List BufferReq) :
    Except String PackedAllocation :=
  match common_mem_type_loop 0xFFFFFFFF reqs with
  | .error e => .error e
  | .ok common =>
    match get_memory_type_index mem_types common memory_properties with
    | .error e => .error e
    | .ok idx =>
      match (assign_offsets (List.insertionSort buffer_le (reqs.map to_buffer_info))).getLast? with
      | none => .error "undefined behavior: empty buffer sequence"
      | some last =>
        .ok { totalSize := u32 (last.offset + last.size)
              memTypeIndex := idx
              perBuffer := assign_offsets (List.insertionSort buffer_le (reqs.map to_buffer_info)) }

/-! ## Claim invariants for the packed allocation -/

/-- Every offset in the packed order is a multiple of its buffer's
required alignment. -/
def offsets_aligned (l : List BufferInfo) : Bool :=
  l.all (fun b => b.offset % b.alignment = 0)

/-- Consecutive packed ranges do not overlap:
`offset[i] + size[i] <= offset[i+1]` (with exact Nat arithmetic). -/
def ranges_disjoint : List BufferInfo → Bool
  | [] => true
  | [_] => true
  | a :: b :: rest => decide (a.offset + a.size ≤ b.offset) && ranges_disjoint (b :: rest)

/-- The allocated total size equals `offset[last] + size[last]` (with
exact Nat arithmetic). -/
def total_size_matches (p : PackedAllocation) : Bool :=
  match p.perBuffer.getLast? with
  | none => false
  | some last => decide (p.totalSize = last.offset + last.size)

/-- Conjunction of the three packing invariants claimed for
`allocate_memory`. -/
def packing_invariant (p : PackedAllocation) : Bool :=
  offsets_aligned p.perBuffer && ranges_disjoint p.perBuffer && total_size_matches p

/-! ## Queue family resolution (src/src/Vulkan.cpp, `get_queue_family_indices`) -/

/-- Value of `VK_QUEUE_GRAPHICS_BIT`. -/
def QUEUE_GRAPHICS_BIT : Nat := 1

/-- One queue family as seen by `get_queue_family_indices`: its capability
flags and the result of the `vkGetPhysicalDeviceSurfaceSupportKHR` query. -/
structure QueueFamily where
  queueFlags     : Nat
  presentSupport : Bool
deriving DecidableEq

/-- Model of `struct QueueFamilyIndices` (src/src/Vulkan.cpp:230). -/
structure QueueFamilyIndices where
  graphics_family : Option Nat := none
  present_family  : Option Nat := none
deriving DecidableEq

/-- Model of `QueueFamilyIndices::has_all_queue_families` (src/src/Vulkan.cpp:235). -/
def has_all_queue_families (q : QueueFamilyIndices) : Bool :=
  q.graphics_family.isSome && q.present_family.isSome

/-- The loop of src/src/Vulkan.cpp:247-260: a fresh `QueueFamilyIndices`
per family `i`, kept only when that single family provides both roles. -/
def build_all_indices (i : Nat) : List QueueFamily → List QueueFamilyIndices
  | [] => []
  | f :: rest =>
    let indices : QueueFamilyIndices :=
      { graphics_family := if f.queueFlags &&& QUEUE_GRAPHICS_BIT ≠ 0 then some i else none
        present_family  := if f.presentSupport then some i else none }
    if has_all_queue_families indices
    then indices :: build_all_indices (i + 1) rest
    else build_all_indices (i + 1) rest

/-- Model of `get_queue_family_indices` (src/src/Vulkan.cpp:242-274). The
`find_if` predicate compares `graphics_family.value()` with
`present_family.value()`; every stored record has both fields populated,
so the `Option` equality below coincides with the dereferenced
comparison. -/
def get_queue_family_indices (families : List QueueFamily) :
    Except String QueueFamilyIndices :=
  match build_all_indices 0 families with
  | [] => .error "failed to support necessary queue families"
  | first :: rest =>
    match (first :: rest).find? (fun x => decide (x.graphics_family = x.present_family)) with
    | some x => .ok x
    | none => .ok first

/-! ## Device scoring and selection (src/src/Vulkan.cpp,
`get_physical_devices_score` / `Vulkan::select_physical_device`) -/

/-- A physical device as probed by the selector: properties, features,
queue families, supported device extensions, and swapchain support data. -/
structure PhysicalDevice where
  isDiscreteGpu       : Bool
  maxImageDimension2D : Nat
  geometryShader      : Bool
  queueFamilies       : List QueueFamily
  supportedExtensions : List String
  surfaceFormats      : List Nat
  presentModes        : List Nat
deriving DecidableEq

/-- The per-device score computation of src/src/Vulkan.cpp:190-197 (the
identical code is `App::rate_device_suitability` in src/main.cpp:433-456):
`int score = 0`, `+ 1000` for a discrete GPU, `+ maxImageDimension2D`
(unsigned 32-bit addition, converted back to `int`), collapsed to `0`
when the geometry-shader feature is absent. -/
def rate_device_suitability (d : PhysicalDevice) : Int :=
  let base : Nat := if d.isDiscreteGpu then 1000 else 0
  let score : Int := toInt32 (base + u32 d.maxImageDimension2D)
  if !d.geometryShader then 0 else score

/-- Model of `get_physical_devices_score` (src/src/Vulkan.cpp:182-202): a
`std::multimap<int, VkPhysicalDevice>` keyed by score, i.e. the list of
(score, device) pairs stably sorted by ascending score. -/
def get_physical_devices_score (devices : List PhysicalDevice) :
    List (Int × PhysicalDevice) :=
  List.insertionSort (fun a b => a.1 ≤ b.1)
    (devices.map (fun d => (rate_device_suitability d, d)))

/-- The required device extension names `Device_Extensions` (src/src/Vulkan.cpp:293-298). -/
def Device_Extensions : List String :=
  ["VK_KHR_swapchain", "VK_EXT_swapchain_maintenance_1"]

/-- Model of `check_device_extensions_support` (src/src/Vulkan.cpp:300-314). -/
def check_device_extensions_support (d : PhysicalDevice)
    (extensions : List String) : Bool :=
  extensions.all (fun e => d.supportedExtensions.contains e)

/-- Model of `SwapChainSupportDetails::has_empty` (src/src/Vulkan.cpp:322-325). -/
def swapchain_details_has_empty (d : PhysicalDevice) : Bool :=
  d.surfaceFormats.isEmpty || d.presentModes.isEmpty

/-- The candidate loop of `Vulkan::select_physical_device`
(src/src/Vulkan.cpp:651-663), over the score-sorted sequence in reverse
(descending) order; `get_queue_family_indices` throws out of the loop. -/
def select_physical_device_loop :
    List (Int × PhysicalDevice) → Except String (Option PhysicalDevice)
  | [] => .ok none
  | (score, d) :: rest =>
    if score > 0 then
      match get_queue_family_indices d.queueFamilies with
      | .error e => .error e
      | .ok _ =>
        if check_device_extensions_support d Device_Extensions &&
           !swapchain_details_has_empty d
        then .ok (some d)
        else select_physical_device_loop rest
    else select_physical_device_loop rest

/-- Model of `Vulkan::select_physical_device` (src/src/Vulkan.cpp:646-671),
including the emptiness check of `get_supported_physical_devices`
(line 176). -/
def select_physical_device (devices : List PhysicalDevice) :
    Except String PhysicalDevice :=
  if devices.isEmpty then .error "failed to find GPUs with vulkan support"
  else
    match select_physical_device_loop (get_physical_devices_score devices).reverse with
    | .error e => .error e
    | .ok none => .error "failed to find a suitable GPU"
    | .ok (some d) => .ok d

/-! ## Swapchain extent (src/src/Vulkan.cpp, `get_swap_extent`) -/

/-- Model of `VkExtent2D`. -/
structure Extent2D where
  width  : Nat
  height : Nat
deriving DecidableEq

/-- The fields of `VkSurfaceCapabilitiesKHR` read by `get_swap_extent`. -/
structure SurfaceCapabilities where
  currentExtent  : Extent2D
  minImageExtent : Extent2D
  maxImageExtent : Extent2D
deriving DecidableEq

/-- Model of `std::clamp(v, lo, hi)` (precondition `lo <= hi`). -/
def clampNat (v lo hi : Nat) : Nat :=
  if v < lo then lo else if hi < v then hi else v

/-- Model of `get_swap_extent` (src/src/Vulkan.cpp:371-389). The live framebuffer
size delivered by `glfwGetFramebufferSize` is an `int` pair cast to
`uint32_t`, modelled by `u32` of the inputs. -/
def get_swap_extent (capabilities : SurfaceCapabilities)
    (fb_width fb_height : Nat) : Extent2D :=
  if capabilities.currentExtent.width ≠ 4294967295 then
    capabilities.currentExtent
  else
    { width := clampNat (u32 fb_width)
        capabilities.minImageExtent.width capabilities.maxImageExtent.width
      height := clampNat (u32 fb_height)
        capabilities.minImageExtent.height capabilities.maxImageExtent.height }

/-! ## Frame loop (src/src/Vulkan.cpp, `Vulkan::draw`) -/

/-- The in-flight frame count `Max_Frame_Number` (src/include/Vulkan.hpp:150). -/
def Max_Frame_Number : Nat := 2

/-- The per-slot operations performed by one `Vulkan::draw` call, each
tagged with the frame-slot index whose resources it uses. -/
inductive DrawOp where
  | updateUniformBuffers (slot : Nat)
  | waitForFences (slot : Nat)
  | acquireNextImage (slot : Nat)
  | resetFences (slot : Nat)
  | resetCommandBuffer (slot : Nat)
  | recordCommandBuffer (slot : Nat)
  | queueSubmit (slot : Nat)
  | queuePresent (slot : Nat)
deriving DecidableEq

/-- The frame-slot index an operation uses. -/
def DrawOp.slot : DrawOp → Nat
  | .updateUniformBuffers s => s
  | .waitForFences s => s
  | .acquireNextImage s => s
  | .resetFences s => s
  | .resetCommandBuffer s => s
  | .recordCommandBuffer s => s
  | .queueSubmit s => s
  | .queuePresent s => s

/-- The operation sequence of one successful `Vulkan::draw` call
(src/src/Vulkan.cpp:1169-1214) for current slot `c`: every fence,
semaphore and command-buffer access indexes `_current_frame = c`. -/
def draw_ops (c : Nat) : List DrawOp :=
  [.updateUniformBuffers c, .waitForFences c, .acquireNextImage c,
   .resetFences c, .resetCommandBuffer c, .recordCommandBuffer c,
   .queueSubmit c, .queuePresent c]

/-- The slot advance `_current_frame = ++_current_frame % Max_Frame_Number`
(src/src/Vulkan.cpp:1215), with the increment in `uint32_t` arithmetic. -/
def draw_next (c : Nat) : Nat := u32 (c + 1) % Max_Frame_Number

/-- A run of `n` successful frame cycles starting at slot `c`
(`_current_frame` starts at `0`, src/main.cpp:1407): the list of
per-cycle operation sequences. -/
def run_cycles (c : Nat) : Nat → List (List DrawOp)
  | 0 => []
  | n + 1 => draw_ops c :: run_cycles (draw_next c) n

/-! ## Construction-time configuration checks (src/src/Vulkan.cpp,
`check_create_info` / `Vulkan::Vulkan`) -/

/-- Model of `Vulkan::ApplicationInfo` (src/include/Vulkan.hpp:29-36); versions are
`uint32_t`, `vulkan_version` defaults to `(uint32_t)-1`. -/
structure ApplicationInfo where
  app_name       : String := ""
  app_version    : Nat := 0
  engine_name    : String := ""
  engine_version : Nat := 0
  vulkan_version : Nat := 4294967295
deriving DecidableEq

/-- Model of `Vulkan::VulkanCreateInfo` (src/include/Vulkan.hpp:54-60); `width` and
`height` are `uint32_t`, `app_info` is `std::optional`. -/
structure VulkanCreateInfo where
  width    : Nat
  height   : Nat
  title    : String
  app_info : Option ApplicationInfo := none
deriving DecidableEq

/-- Outcome of `check_create_info` distinguishing a thrown
`std::runtime_error` from the undefined behavior of dereferencing an
empty `std::optional`. -/
inductive CheckError where
  | invalidArg (msg : String)
  | emptyOptionalDeref
deriving DecidableEq

/-- Model of `check_create_info` (src/src/Vulkan.cpp:53-59) in a total embedding.
The condition of the last `throw_if` is
`!info.app_info.has_value() && info.app_info->app_version == -1`: when
`app_info` is present the `&&` short-circuits to false (no throw); when it
is absent the right operand dereferences the empty optional. -/
def check_create_info (info : VulkanCreateInfo) : Except CheckError Unit :=
  if info.width ≤ 0 then .error (.invalidArg "width of window is invalid value!")
  else if info.height ≤ 0 then .error (.invalidArg "height of window is invalid value!")
  else if info.title.isEmpty then .error (.invalidArg "title not specified!")
  else
    match info.app_info with
    | none => .error .emptyOptionalDeref
    | some _ => .ok ()

/-- Native (window-system or graphics API) calls, for tracing whether the
constructor touched any native resource. -/
inductive NativeCall where
  | glfwInitCall
deriving DecidableEq

/-- The prefix of `Vulkan::Vulkan` (src/src/Vulkan.cpp:497-502) up to the
first native call: `check_create_info(info)` runs first; only on success
does `init_window` (src/src/Vulkan.cpp:553-562) issue the first native
call (`glfwInit`). Everything after that first call depends on external
results and is outside this model. -/
def vulkan_constructor_start (info : VulkanCreateInfo) :
    Except CheckError Unit × List NativeCall :=
  match check_create_info info with
  | .error e => (.error e, [])
  | .ok _ => (.ok (), [NativeCall.glfwInitCall])

/-! ## Auxiliary notions for the packing proofs -/

/-- Sum of `size + alignment` over a buffer list; the budget consumed by
the packing (each step advances by at most `size` plus `alignment - 1`
bytes of padding). -/
def wsum (l : List BufferInfo) : Nat :=
  (l.map (fun b => b.size + b.alignment)).sum

/-- The packing chain property from a previous end position `e`: each
offset is at least `e`, each offset is a multiple of its alignment, and
the chain continues from that buffer's end. -/
def chain_ok : Nat → List BufferInfo → Prop
  | _, [] => True
  | e, b :: rest =>
    e ≤ b.offset ∧ b.offset % b.alignment = 0 ∧ chain_ok (b.offset + b.size) rest

/-- End position of the last buffer of the list (or `e` if empty). -/
def last_end (e : Nat) : List BufferInfo → Nat
  | [] => e
  | b :: rest => last_end (b.offset + b.size) rest

/-- All alignments in the list are 32-bit powers of two (the guarantee
the Vulkan API gives for `VkMemoryRequirements::alignment`). -/
def pow2_aligned (l : List BufferInfo) : Prop :=
  ∀ b ∈ l, ∃ k, k ≤ 31 ∧ b.alignment = 2 ^ k

/-! ## Helper lemmas -/

/-- Characterization of `std::clamp` on naturals. -/
theorem clampNat_spec (v lo hi : Nat) (h : lo ≤ hi) :
    lo ≤ clampNat v lo hi ∧ clampNat v lo hi ≤ hi ∧
    (v < lo → clampNat v lo hi = lo) ∧
    (hi < v → clampNat v lo hi = hi) ∧
    (lo ≤ v → v ≤ hi → clampNat v lo hi = v) := by
  unfold clampNat
  split_ifs <;> omega

/-! ## C2 -/

/-- C2: for the three buffers (size=64, alignment=16), (size=256,
alignment=256), (size=10, alignment=4) the sub-allocator sorts them
descending by alignment then size, assigns offsets 0 / 256 / 320 in that
order (buffer 1 / buffer 0 / buffer 2), and allocates 330 bytes total. -/
theorem allocate_memory_spec_scenario :
    allocate_memory [⟨0⟩] 0
      [⟨0, 64, 16, 1⟩, ⟨1, 256, 256, 1⟩, ⟨2, 10, 4, 1⟩] =
    .ok { totalSize := 330, memTypeIndex := 0,
          perBuffer := [⟨1, 0, 256, 256⟩, ⟨0, 256, 64, 16⟩, ⟨2, 320, 10, 4⟩] } := by
  rfl

/-! ## C4 -/

/-- C4: evaluation of the code at the failing input. A device whose queue
families are family 0 = graphics without present support and family 1 =
present without graphics support has a complete graphics+present pairing
(graphics=0, present=1), yet `get_queue_family_indices` throws "failed to
support necessary queue families" instead of returning it: the loop keeps
a pairing only when a single family provides both roles, so the
different-index fallback `return all_indices[0]` is unreachable. -/
theorem get_queue_family_indices_split_roles_throws :
    get_queue_family_indices [⟨1, false⟩, ⟨0, true⟩] =
      .error "failed to support necessary queue families" := by
  rfl

/-! ## C6 -/

/-- C6: evaluation of the code at the failing input. Candidate list:
device A (discrete, geometry shader, maxImageDimension2D = 200, score
1200) whose only queue family lacks present support (incomplete queue
family indices), followed by device B (integrated, score 800) satisfying
all four suitability conditions. The claimed first-fit selection should
skip A and promote B; the code instead aborts the whole selection with
the queue-family error thrown by `get_queue_family_indices` on A. -/
theorem select_physical_device_aborts_on_incomplete_candidate :
    select_physical_device
      [{ isDiscreteGpu := true, maxImageDimension2D := 200,
         geometryShader := true, queueFamilies := [⟨1, false⟩],
         supportedExtensions := Device_Extensions,
         surfaceFormats := [0], presentModes := [0] },
       { isDiscreteGpu := false, maxImageDimension2D := 800,
         geometryShader := true, queueFamilies := [⟨1, true⟩],
         supportedExtensions := Device_Extensions,
         surfaceFormats := [0], presentModes := [0] }] =
      .error "failed to support necessary queue families" := by
  rfl

/-! ## C9 -/

/-- C9: a `VulkanCreateInfo` with zero width, zero height, or an empty
title makes construction fail inside `check_create_info` with a thrown
invalid-argument error, before any window-system or graphics native call
is made (the constructor's native-call trace is empty). -/
theorem construction_rejects_invalid_info (info : VulkanCreateInfo)
    (h : info.width = 0 ∨ info.height = 0 ∨ info.title.isEmpty = true) :
    (vulkan_constructor_start info).2 = [] ∧
    ∃ msg, (vulkan_constructor_start info).1 = .error (.invalidArg msg) := by
  unfold vulkan_constructor_start check_create_info
  rcases h with h | h | h
  · simp [h]
  · by_cases hw : info.width ≤ 0
    · simp [hw]
    · simp [hw, h]
  · by_cases hw : info.width ≤ 0
    · simp [hw]
    · by_cases hh : info.height ≤ 0
      · simp [hw, hh]
      · simp [hw, hh, h]

/-- Witness for C9 at the concrete input width=0, height=600,
title="test". -/
theorem construction_rejects_invalid_info_witness :
    (vulkan_constructor_start ⟨0, 600, "test", none⟩).2 = [] ∧
    ∃ msg, (vulkan_constructor_start ⟨0, 600, "test", none⟩).1 =
      .error (.invalidArg msg) :=
  construction_rejects_invalid_info ⟨0, 600, "test", none⟩ (Or.inl rfl)

/-! ## C10 -/

/-- C10: for a `VulkanCreateInfo` with valid width, height, and title, the
last check of `check_create_info` evaluates `info.app_info->app_version`
after `!info.app_info.has_value()` already returned true, so in the total
embedding the dereference-of-empty-optional outcome is reached exactly
when `app_info` is absent. -/
theorem check_create_info_empty_optional_deref (info : VulkanCreateInfo)
    (hw : 0 < info.width) (hh : 0 < info.height)
    (ht : info.title.isEmpty = false) :
    (check_create_info info = .error .emptyOptionalDeref ↔
      info.app_info = none) := by
  unfold check_create_info
  have hw' : ¬ info.width ≤ 0 := by omega
  have hh' : ¬ info.height ≤ 0 := by omega
  cases hopt : info.app_info <;> simp [hw', hh', ht, hopt]

/-- Witness for C10 at width=800, height=600, title="test" with `app_info`
absent. -/
theorem check_create_info_empty_optional_deref_witness :
    (check_create_info ⟨800, 600, "test", none⟩ = .error .emptyOptionalDeref ↔
      (⟨800, 600, "test", none⟩ : VulkanCreateInfo).app_info = none) :=
  check_create_info_empty_optional_deref ⟨800, 600, "test", none⟩
    (by decide) (by decide) (by decide)

/-! ## C7 -/

/-- C7: when the surface capabilities report the sentinel extent
(`currentExtent.width == UINT32_MAX`) the derived swapchain extent clamps
each framebuffer dimension independently into
`[minImageExtent, maxImageExtent]` — a dimension below the range yields
the minimum, one above yields the maximum, one inside is kept — and when
the sentinel is not reported the capability extent is returned verbatim. -/
theorem get_swap_extent_clamps (caps : SurfaceCapabilities) (fbw fbh : Nat) :
    (caps.currentExtent.width ≠ 4294967295 →
      get_swap_extent caps fbw fbh = caps.currentExtent) ∧
    (caps.currentExtent.width = 4294967295 →
     caps.minImageExtent.width ≤ caps.maxImageExtent.width →
     caps.minImageExtent.height ≤ caps.maxImageExtent.height →
      ((caps.minImageExtent.width ≤ (get_swap_extent caps fbw fbh).width ∧
        (get_swap_extent caps fbw fbh).width ≤ caps.maxImageExtent.width ∧
        (u32 fbw < caps.minImageExtent.width →
          (get_swap_extent caps fbw fbh).width = caps.minImageExtent.width) ∧
        (caps.maxImageExtent.width < u32 fbw →
          (get_swap_extent caps fbw fbh).width = caps.maxImageExtent.width) ∧
        (caps.minImageExtent.width ≤ u32 fbw → u32 fbw ≤ caps.maxImageExtent.width →
          (get_swap_extent caps fbw fbh).width = u32 fbw)) ∧
       (caps.minImageExtent.height ≤ (get_swap_extent caps fbw fbh).height ∧
        (get_swap_extent caps fbw fbh).height ≤ caps.maxImageExtent.height ∧
        (u32 fbh < caps.minImageExtent.height →
          (get_swap_extent caps fbw fbh).height = caps.minImageExtent.height) ∧
        (caps.maxImageExtent.height < u32 fbh →
          (get_swap_extent caps fbw fbh).height = caps.maxImageExtent.height) ∧
        (caps.minImageExtent.height ≤ u32 fbh → u32 fbh ≤ caps.maxImageExtent.height →
          (get_swap_extent caps fbw fbh).height = u32 fbh)))) := by
  constructor
  · intro h
    simp [get_swap_extent, h]
  · intro h hwle hhle
    have hne : ¬ caps.currentExtent.width ≠ 4294967295 := by simp [h]
    simp only [get_swap_extent, hne, if_false]
    exact ⟨clampNat_spec (u32 fbw) _ _ hwle, clampNat_spec (u32 fbh) _ _ hhle⟩

/-- Witness for C7: a sentinel-reporting capability set with range
[100, 200] × [50, 150] and a 4000×10 framebuffer clamps to 200×50. -/
theorem get_swap_extent_clamps_witness :
    ((⟨⟨4294967295, 0⟩, ⟨100, 50⟩, ⟨200, 150⟩⟩ : SurfaceCapabilities).currentExtent.width =
      4294967295) ∧
    get_swap_extent ⟨⟨4294967295, 0⟩, ⟨100, 50⟩, ⟨200, 150⟩⟩ 4000 10 = ⟨200, 50⟩ := by
  refine ⟨rfl, ?_⟩
  have h := (get_swap_extent_clamps ⟨⟨4294967295, 0⟩, ⟨100, 50⟩, ⟨200, 150⟩⟩ 4000 10).2
    rfl (by decide) (by decide)
  have hw := h.1.2.2.2.1 (by decide)
  have hh := h.2.2.2.1 (by decide)
  cases hgoal : get_swap_extent ⟨⟨4294967295, 0⟩, ⟨100, 50⟩, ⟨200, 150⟩⟩ 4000 10
  simp_all

/-! ## C8 -/

/-- The slot advance computed by one draw call, for a slot in range. -/
theorem draw_next_in_range (c : Nat) : draw_next c < 2 := by
  unfold draw_next Max_Frame_Number
  omega

/-- The i-th cycle of a run starting at slot `c < 2` uses slot
`(c + i) % 2`. -/
theorem run_cycles_get (n : Nat) :
    ∀ i c, c < 2 → i < n →
      (run_cycles c n)[i]? = some (draw_ops ((c + i) % 2)) := by
  induction n with
  | zero => intro i c _ hi; omega
  | succ n ih =>
    intro i c hc hi
    cases i with
    | zero =>
      have hc2 : c % 2 = c := by omega
      simp [run_cycles, hc2]
    | succ i =>
      have hstep : draw_next c = (c + 1) % 2 := by
        unfold draw_next u32 U32MOD Max_Frame_Number
        omega
      have htail := ih i (draw_next c) (draw_next_in_range c) (by omega)
      rw [hstep] at htail
      have harith : ((c + 1) % 2 + i) % 2 = (c + (i + 1)) % 2 := by omega
      rw [harith] at htail
      simpa [run_cycles, hstep] using htail

/-- C8: in a run of `N` successful frame cycles starting from slot 0, the
i-th cycle (0-based) uses slot `i mod 2` for every one of its operations
(fence wait, acquire, fence reset, command-buffer reset/record, submit,
present), the slot stays in `[0, Max_Frame_Number)`, and each cycle
advances the slot to `(c + 1) mod 2`. -/
theorem draw_slot_sequence (N i : Nat) (hi : i < N) :
    (run_cycles 0 N)[i]? = some (draw_ops (i % 2)) ∧
    (∀ op ∈ draw_ops (i % 2), op.slot = i % 2) ∧
    i % 2 < Max_Frame_Number ∧
    draw_next (i % 2) = (i + 1) % 2 := by
  refine ⟨?_, ?_, ?_, ?_⟩
  · have h := run_cycles_get N i 0 (by omega) hi
    have : (0 + i) % 2 = i % 2 := by omega
    rwa [this] at h
  · intro op hop
    simp only [draw_ops, List.mem_cons, List.not_mem_nil, or_false] at hop
    rcases hop with rfl | rfl | rfl | rfl | rfl | rfl | rfl | rfl <;> rfl
  · unfold Max_Frame_Number
    omega
  · unfold draw_next u32 U32MOD Max_Frame_Number
    omega

/-- Witness for C8 at a run of 3 cycles, cycle index 2. -/
theorem draw_slot_sequence_witness :
    (run_cycles 0 3)[2]? = some (draw_ops (2 % 2)) ∧
    (∀ op ∈ draw_ops (2 % 2), op.slot = 2 % 2) ∧
    2 % 2 < Max_Frame_Number ∧
    draw_next (2 % 2) = (2 + 1) % 2 :=
  draw_slot_sequence 3 2 (by decide)

/-! ## C5 -/

/-- C5 counterexample: the claim "score equals 1000 plus the maximum 2D
image dimension limit when discrete" fails as stated at the concrete
device with `maxImageDimension2D = 2147483647` (a legal `uint32_t`
limit): `score += maxImageDimension2D` is performed in 32-bit unsigned
arithmetic and converted back to a C `int`, wrapping to a negative
score. -/
theorem rate_device_suitability_overflow :
    rate_device_suitability
      { isDiscreteGpu := true, maxImageDimension2D := 2147483647,
        geometryShader := true, queueFamilies := [],
        supportedExtensions := [], surfaceFormats := [],
        presentModes := [] } ≠ 1000 + 2147483647 := by
  decide

/-- C5 amended: the score is 0 whenever the geometry-shader feature is
absent, regardless of the other terms; and provided
`maxImageDimension2D + 1000` does not overflow a 32-bit `int`, the score
equals 1000 plus the limit for a discrete GPU and the limit alone
otherwise. -/
theorem rate_device_suitability_eq (d : PhysicalDevice) :
    (d.geometryShader = false → rate_device_suitability d = 0) ∧
    (d.geometryShader = true → d.maxImageDimension2D + 1000 < 2147483648 →
      rate_device_suitability d =
        if d.isDiscreteGpu then 1000 + (d.maxImageDimension2D : Int)
        else (d.maxImageDimension2D : Int)) := by
  constructor
  · intro h
    simp [rate_device_suitability, h]
  · intro hg hlt
    have hmax : d.maxImageDimension2D % 4294967296 = d.maxImageDimension2D :=
      Nat.mod_eq_of_lt (by omega)
    unfold rate_device_suitability toInt32 u32 U32MOD
    cases hd : d.isDiscreteGpu <;> simp [hg, hmax] <;> omega

/-- Witness for C5: a geometry-shader-less device scores 0, and a discrete
device with limit 4096 and geometry shader scores 1000 + 4096. -/
theorem rate_device_suitability_eq_witness :
    rate_device_suitability
      { isDiscreteGpu := true, maxImageDimension2D := 4096,
        geometryShader := false, queueFamilies := [],
        supportedExtensions := [], surfaceFormats := [], presentModes := [] } = 0 ∧
    rate_device_suitability
      { isDiscreteGpu := true, maxImageDimension2D := 4096,
        geometryShader := true, queueFamilies := [],
        supportedExtensions := [], surfaceFormats := [], presentModes := [] } =
      1000 + (4096 : Int) := by
  constructor
  · exact (rate_device_suitability_eq _).1 rfl
  · have h := (rate_device_suitability_eq
      { isDiscreteGpu := true, maxImageDimension2D := 4096,
        geometryShader := true, queueFamilies := [],
        supportedExtensions := [], surfaceFormats := [], presentModes := [] }).2
      rfl (by decide)
    simpa using h

/-! ## Bit-level facts about the alignment mask -/

/-- Conjunction with the mask `2^w - 2^k` (all bits from `k` up to `w`)
clears the low `k` bits of a `w`-bit value: it rounds down to a multiple
of `2^k`. -/
theorem land_compl_two_pow (y k w : Nat) (hy : y < 2 ^ w) (hk : k ≤ w) :
    y &&& (2 ^ w - 2 ^ k) = 2 ^ k * (y / 2 ^ k) := by
  have hk1 : (1 : Nat) ≤ 2 ^ k := Nat.one_le_two_pow
  have hkw : (2 : Nat) ^ k ≤ 2 ^ w := Nat.pow_le_pow_right (by omega) hk
  have hmask : (2 : Nat) ^ w - 2 ^ k = 2 ^ w - ((2 ^ k - 1) + 1) := by omega
  have hshift : 2 ^ k * (y / 2 ^ k) = (y >>> k) <<< k := by
    rw [Nat.shiftLeft_eq, Nat.shiftRight_eq_div_pow, Nat.mul_comm]
  apply Nat.eq_of_testBit_eq
  intro j
  rw [Nat.testBit_land, hmask,
      Nat.testBit_two_pow_sub_succ (by omega : 2 ^ k - 1 < 2 ^ w),
      Nat.testBit_two_pow_sub_one, hshift, Nat.testBit_shiftLeft,
      Nat.testBit_shiftRight]
  by_cases hjk : k ≤ j
  · have hkj : k + (j - k) = j := by omega
    by_cases hjw : j < w
    · simp [hjk, hjw, hkj, Nat.not_lt.mpr hjk]
    · have hylt : y < 2 ^ j :=
        lt_of_lt_of_le hy (Nat.pow_le_pow_right (by omega) (by omega))
      simp [hjk, hjw, hkj, Nat.testBit_lt_two_pow hylt]
  · simp [hjk, (by omega : j < k)]

/-- A bit-test `supported & (1 << i)` is non-zero exactly when bit `i` is
set. -/
theorem land_two_pow_ne_zero_iff (n i : Nat) :
    n &&& 2 ^ i ≠ 0 ↔ n.testBit i = true := by
  constructor
  · intro h
    by_contra hbit
    apply h
    apply Nat.eq_of_testBit_eq
    intro j
    rw [Nat.testBit_land, Nat.testBit_two_pow, Nat.zero_testBit]
    by_cases hij : i = j
    · subst hij
      simp_all
    · simp [hij]
  · intro h h0
    have := congrArg (fun m => Nat.testBit m i) h0
    simp [Nat.testBit_land, Nat.testBit_two_pow, h] at this

/-! ## The alignment step -/

/-- Under a power-of-two alignment `2^k` and a no-overflow bound, the C
expression `(po + ps + a - 1) & ~(a - 1)` computes rounding the previous
end `po + ps` up: it equals `x - x % 2^k` for `x = po + ps + 2^k - 1`. -/
theorem align_offset_eq (po ps k : Nat) (hk : k ≤ 31)
    (hbound : po + ps + 2 ^ k ≤ 4294967296) :
    align_offset po ps (2 ^ k) =
      (po + ps + 2 ^ k - 1) - (po + ps + 2 ^ k - 1) % 2 ^ k := by
  have hk1 : (1 : Nat) ≤ 2 ^ k := Nat.one_le_two_pow
  have hklt : (2 : Nat) ^ k ≤ 2 ^ 31 := Nat.pow_le_pow_right (by omega) hk
  have h31 : (2 : Nat) ^ 31 = 2147483648 := by norm_num
  have hx : sub32 (u32 (u32 (po + ps) + 2 ^ k)) 1 = po + ps + 2 ^ k - 1 := by
    unfold sub32 u32 U32MOD
    omega
  have hnot : not32 (sub32 (2 ^ k) 1) = 4294967296 - 2 ^ k := by
    unfold sub32 not32 U32MOD
    omega
  unfold align_offset
  rw [hx, hnot]
  have h32 : (4294967296 : Nat) = 2 ^ 32 := by norm_num
  rw [h32, land_compl_two_pow _ k 32 (by omega) (by omega)]
  have hdm := Nat.div_add_mod (po + ps + 2 ^ k - 1) (2 ^ k)
  omega

/-- The three facts the packing invariant needs about one alignment step:
it does not move before the previous end, it advances by less than one
alignment unit, and it lands on a multiple of the alignment. -/
theorem align_offset_facts (po ps k : Nat) (hk : k ≤ 31)
    (hbound : po + ps + 2 ^ k ≤ 4294967296) :
    po + ps ≤ align_offset po ps (2 ^ k) ∧
    align_offset po ps (2 ^ k) ≤ po + ps + 2 ^ k - 1 ∧
    align_offset po ps (2 ^ k) % 2 ^ k = 0 := by
  have hk1 : (1 : Nat) ≤ 2 ^ k := Nat.one_le_two_pow
  rw [align_offset_eq po ps k hk hbound]
  have hmod : (po + ps + 2 ^ k - 1) % 2 ^ k < 2 ^ k :=
    Nat.mod_lt _ (by omega)
  have hdm := Nat.div_add_mod (po + ps + 2 ^ k - 1) (2 ^ k)
  refine ⟨by omega, by omega, ?_⟩
  have hrw : po + ps + 2 ^ k - 1 - (po + ps + 2 ^ k - 1) % 2 ^ k =
      2 ^ k * ((po + ps + 2 ^ k - 1) / 2 ^ k) := by omega
  rw [hrw, Nat.mul_mod_right]

/-! ## The packing chain invariant -/

/-- Specification of the offset-assignment loop: starting after a buffer
ending at `po + ps`, with power-of-two alignments and enough headroom
below 2^32, the loop produces a chain of aligned, non-overlapping,
monotonically advancing buffers whose end stays within the
`size + alignment` budget; buffers, sizes and alignments are unchanged. -/
theorem assign_offsets_from_spec (l : List BufferInfo) :
    ∀ po ps : Nat, pow2_aligned l →
      po + ps + wsum l ≤ 4294967296 →
      chain_ok (po + ps) (assign_offsets_from po ps l) ∧
      last_end (po + ps) (assign_offsets_from po ps l) ≤ po + ps + wsum l ∧
      (assign_offsets_from po ps l).map (fun b => (b.buffer, b.size, b.alignment)) =
        l.map (fun b => (b.buffer, b.size, b.alignment)) := by
  induction l with
  | nil =>
    intro po ps _ _
    exact ⟨trivial, by simp [assign_offsets_from, last_end, wsum], rfl⟩
  | cons b rest ih =>
    intro po ps hpow hsum
    obtain ⟨k, hk, ha⟩ := hpow b (by simp)
    have hw : wsum (b :: rest) = b.size + b.alignment + wsum rest := by
      simp [wsum]
    have hk1 : (1 : Nat) ≤ 2 ^ k := Nat.one_le_two_pow
    rw [hw, ha] at hsum
    have hbound : po + ps + 2 ^ k ≤ 4294967296 := by omega
    have hfacts := align_offset_facts po ps k hk hbound
    set o := align_offset po ps (2 ^ k) with ho
    have hrest := ih o b.size (fun b' hb' => hpow b' (by simp [hb']))
      (by omega)
    have hchain : chain_ok (po + ps)
        ({ b with offset := o } :: assign_offsets_from o b.size rest) :=
      ⟨hfacts.1, by rw [ha]; exact hfacts.2.2, hrest.1⟩
    have hstep : assign_offsets_from po ps (b :: rest) =
        { b with offset := o } :: assign_offsets_from o b.size rest := by
      simp only [assign_offsets_from, ha, ho]
    refine ⟨?_, ?_, ?_⟩
    · rw [hstep]
      exact hchain
    · have hlast : last_end (po + ps)
          ({ b with offset := o } :: assign_offsets_from o b.size rest) =
          last_end (o + b.size) (assign_offsets_from o b.size rest) := rfl
      rw [hstep, hlast, hw, ha]
      have := hrest.2.1
      omega
    · rw [hstep]
      simp only [List.map_cons, hrest.2.2]

/-- A packing chain has alignment-correct offsets. -/
theorem chain_ok_offsets_aligned (l : List BufferInfo) :
    ∀ e, chain_ok e l → offsets_aligned l = true := by
  induction l with
  | nil => intro e _; rfl
  | cons b rest ih =>
    intro e h
    simp only [offsets_aligned, List.all_cons, Bool.and_eq_true, decide_eq_true_eq]
    exact ⟨h.2.1, by simpa [offsets_aligned] using ih (b.offset + b.size) h.2.2⟩

/-- A packing chain has pairwise non-overlapping consecutive ranges. -/
theorem chain_ok_ranges_disjoint (l : List BufferInfo) :
    ∀ e, chain_ok e l → ranges_disjoint l = true := by
  induction l with
  | nil => intro e _; rfl
  | cons b rest ih =>
    intro e h
    cases rest with
    | nil => rfl
    | cons b' r =>
      have hr := ih (b.offset + b.size) h.2.2
      have hle : b.offset + b.size ≤ b'.offset := h.2.2.1
      simp only [ranges_disjoint, Bool.and_eq_true, decide_eq_true_eq]
      exact ⟨hle, hr⟩

/-- The `last_end` of a non-empty list is the end of its last element. -/
theorem last_end_getLast (l : List BufferInfo) :
    ∀ e, l ≠ [] → ∃ b, l.getLast? = some b ∧ last_end e l = b.offset + b.size := by
  induction l with
  | nil => intro e h; exact absurd rfl h
  | cons b rest ih =>
    intro e _
    cases rest with
    | nil => exact ⟨b, rfl, rfl⟩
    | cons b' r =>
      obtain ⟨bl, h1, h2⟩ := ih (b.offset + b.size) (by simp)
      exact ⟨bl, by rw [List.getLast?_cons_cons]; exact h1, h2⟩

/-- Inversion of a successful `allocate_memory` call: both fallible stages
succeeded and the result is built from the sorted, offset-assigned list. -/
theorem allocate_memory_ok_inversion (mem_types : List MemoryType)
    (required : Nat) (reqs : List BufferReq) (p : PackedAllocation)
    (hp : allocate_memory mem_types required reqs = .ok p) :
    ∃ common idx last,
      common_mem_type_loop 0xFFFFFFFF reqs = .ok common ∧
      get_memory_type_index mem_types common required = .ok idx ∧
      (assign_offsets (List.insertionSort buffer_le (reqs.map to_buffer_info))).getLast? =
        some last ∧
      p = { totalSize := u32 (last.offset + last.size), memTypeIndex := idx,
            perBuffer :=
              assign_offsets (List.insertionSort buffer_le (reqs.map to_buffer_info)) } := by
  unfold allocate_memory at hp
  split at hp
  · exact absurd hp (by simp)
  · split at hp
    · exact absurd hp (by simp)
    · split at hp
      · exact absurd hp (by simp)
      · rename_i a common h1 b idx h2 c last h3
        cases hp
        exact ⟨common, idx, last, h1, h2, h3, rfl⟩

/-- The per-request weight `size + alignment` only shrinks under the
`uint32_t` narrowing of `to_buffer_info`. -/
theorem wsum_map_le (reqs : List BufferReq) :
    wsum (reqs.map to_buffer_info) ≤ (reqs.map (fun r => r.size + r.alignment)).sum := by
  induction reqs with
  | nil => simp [wsum]
  | cons r rest ih =>
    have h1 : u32 r.size ≤ r.size := Nat.mod_le _ _
    have h2 : u32 r.alignment ≤ r.alignment := Nat.mod_le _ _
    have hstep : wsum ((r :: rest).map to_buffer_info) =
        u32 r.size + u32 r.alignment + wsum (rest.map to_buffer_info) := by
      simp [wsum, to_buffer_info]
    rw [hstep, List.map_cons, List.sum_cons]
    omega

/-! ## C1 -/

/-- C1 counterexample: the claim as stated (every accepted non-empty
request sequence yields an invariant-satisfying packing) is false at the
concrete accepted input of two buffers with power-of-two alignment 4 and
sizes 4294967294 and 4: the 32-bit offset computation wraps and binds
both buffers at offset 0, so the ranges overlap and the claimed
`offset[i] + size[i] <= offset[i+1]` fails. -/
theorem allocate_memory_packing_invariant_cex :
    allocate_memory [⟨0⟩] 0 [⟨0, 4294967294, 4, 1⟩, ⟨1, 4, 4, 1⟩] =
      .ok { totalSize := 4, memTypeIndex := 0,
            perBuffer := [⟨0, 0, 4294967294, 4⟩, ⟨1, 0, 4, 4⟩] } ∧
    packing_invariant
      { totalSize := 4, memTypeIndex := 0,
        perBuffer := [⟨0, 0, 4294967294, 4⟩, ⟨1, 0, 4, 4⟩] } = false := by
  exact ⟨rfl, rfl⟩

/-- C1 amended: for every non-empty request sequence accepted by the
sub-allocator whose alignments are 32-bit powers of two (the Vulkan API
guarantee for `VkMemoryRequirements::alignment`) and whose total
`size + alignment` budget does not exceed 2^32 (no 32-bit overflow in the
offset computation), the packing satisfies all three claimed invariants:
alignment-correct offsets, non-overlapping consecutive ranges in packed
order, and total size equal to the last offset plus the last size. -/
theorem allocate_memory_packing_invariant
    (mem_types : List MemoryType) (required : Nat) (reqs : List BufferReq)
    (hne : reqs ≠ [])
    (hpow : ∀ r ∈ reqs, ∃ k, k ≤ 31 ∧ r.alignment = 2 ^ k)
    (hsum : (reqs.map (fun r => r.size + r.alignment)).sum ≤ 4294967296)
    (p : PackedAllocation)
    (hp : allocate_memory mem_types required reqs = .ok p) :
    packing_invariant p = true := by
  obtain ⟨common, idx, last, h1, h2, h3, hpeq⟩ :=
    allocate_memory_ok_inversion mem_types required reqs p hp
  have h31 : (2 : Nat) ^ 31 = 2147483648 := by norm_num
  have hperm : (List.insertionSort buffer_le (reqs.map to_buffer_info)).Perm
      (reqs.map to_buffer_info) := List.perm_insertionSort buffer_le _
  set sorted := List.insertionSort buffer_le (reqs.map to_buffer_info) with hsorted
  have hpow2 : pow2_aligned sorted := by
    intro b hb
    obtain ⟨r, hr, hrfl⟩ := List.mem_map.mp (hperm.mem_iff.mp hb)
    obtain ⟨k, hk, hak⟩ := hpow r hr
    refine ⟨k, hk, ?_⟩
    rw [← hrfl]
    show u32 r.alignment = 2 ^ k
    rw [hak]
    unfold u32 U32MOD
    have hkle : (2 : Nat) ^ k ≤ 2 ^ 31 := Nat.pow_le_pow_right (by omega) hk
    apply Nat.mod_eq_of_lt
    omega
  have hws : wsum sorted ≤ 4294967296 := by
    have hmapeq : wsum sorted = wsum (reqs.map to_buffer_info) :=
      List.Perm.sum_eq (hperm.map _)
    rw [hmapeq]
    exact le_trans (wsum_map_le reqs) hsum
  have hsne : sorted ≠ [] := by
    intro hnil
    rw [hnil] at hperm
    exact hne (List.eq_nil_of_map_eq_nil hperm.nil_eq.symm)
  obtain ⟨b0, rest, hcons⟩ := List.exists_cons_of_ne_nil hsne
  have hb0 : b0.offset = 0 := by
    have hb0mem : b0 ∈ sorted := by rw [hcons]; simp
    obtain ⟨r, hr, hrfl⟩ := List.mem_map.mp (hperm.mem_iff.mp hb0mem)
    rw [← hrfl]
    rfl
  have hb0align : 1 ≤ b0.alignment := by
    obtain ⟨k, _, hak⟩ := hpow2 b0 (by rw [hcons]; simp)
    rw [hak]
    exact Nat.one_le_two_pow
  have hwcons : wsum sorted = b0.size + b0.alignment + wsum rest := by
    rw [hcons]
    simp [wsum]
  have htail := assign_offsets_from_spec rest b0.offset b0.size
    (fun b' hb' => hpow2 b' (by rw [hcons]; simp [hb']))
    (by rw [hb0]; omega)
  have hpacked : assign_offsets sorted =
      b0 :: assign_offsets_from b0.offset b0.size rest := by
    rw [hcons]
    rfl
  have hchain : chain_ok 0 (assign_offsets sorted) := by
    rw [hpacked]
    exact ⟨by omega, by rw [hb0]; exact Nat.zero_mod _, htail.1⟩
  have hlastbound : last_end 0 (assign_offsets sorted) < 4294967296 := by
    rw [hpacked]
    have hle : last_end 0 (b0 :: assign_offsets_from b0.offset b0.size rest) =
        last_end (b0.offset + b0.size) (assign_offsets_from b0.offset b0.size rest) := rfl
    rw [hle]
    have := htail.2.1
    omega
  obtain ⟨bl, hbl, hblend⟩ := last_end_getLast (assign_offsets sorted) 0
    (by rw [hpacked]; simp)
  have hlastbl : last = bl := by
    rw [h3] at hbl
    exact Option.some_inj.mp hbl
  subst hlastbl
  have htotal : u32 (last.offset + last.size) = last.offset + last.size := by
    unfold u32 U32MOD
    apply Nat.mod_eq_of_lt
    omega
  subst hpeq
  unfold packing_invariant
  have ha := chain_ok_offsets_aligned (assign_offsets sorted) 0 hchain
  have hd := chain_ok_ranges_disjoint (assign_offsets sorted) 0 hchain
  have ht : total_size_matches
      { totalSize := u32 (last.offset + last.size), memTypeIndex := idx,
        perBuffer := assign_offsets sorted } = true := by
    unfold total_size_matches
    simp only [h3, htotal]
    simp
  simp [ha, hd, ht]

/-- Witness for the amended C1 at the three-buffer scenario of the spec. -/
theorem allocate_memory_packing_invariant_witness :
    packing_invariant
      { totalSize := 330, memTypeIndex := 0,
        perBuffer := [⟨1, 0, 256, 256⟩, ⟨0, 256, 64, 16⟩, ⟨2, 320, 10, 4⟩] } = true := by
  refine allocate_memory_packing_invariant [⟨0⟩] 0
    [⟨0, 64, 16, 1⟩, ⟨1, 256, 256, 1⟩, ⟨2, 10, 4, 1⟩]
    (by decide) ?_ (by decide) _ rfl
  intro r hr
  simp only [List.mem_cons, List.not_mem_nil, or_false] at hr
  rcases hr with rfl | rfl | rfl
  · exact ⟨4, by omega, rfl⟩
  · exact ⟨8, by omega, rfl⟩
  · exact ⟨2, by omega, rfl⟩

/-! ## C3: the common-mask loop and the memory-type search -/

/-- Folding `&=` from a zero accumulator stays zero. -/
theorem foldl_land_zero (l : List BufferReq) :
    l.foldl (fun acc r => acc &&& r.memoryTypeBits) 0 = 0 := by
  induction l with
  | nil => rfl
  | cons r rest ih =>
    simp only [List.foldl_cons, Nat.zero_and]
    exact ih

/-- When the full fold is non-zero, the early-exit loop returns it. -/
theorem common_mem_type_loop_ok (l : List BufferReq) :
    ∀ acc, l.foldl (fun acc r => acc &&& r.memoryTypeBits) acc ≠ 0 →
      common_mem_type_loop acc l =
        .ok (l.foldl (fun acc r => acc &&& r.memoryTypeBits) acc) := by
  induction l with
  | nil => intro acc _; rfl
  | cons r rest ih =>
    intro acc h
    have hacc2 : ¬ acc &&& r.memoryTypeBits = 0 := by
      intro h0
      apply h
      rw [List.foldl_cons, h0]
      exact foldl_land_zero rest
    rw [List.foldl_cons] at h ⊢
    simp only [common_mem_type_loop, hacc2, if_false]
    exact ih _ h

/-- When the full fold is zero and the list is non-empty, the early-exit
loop throws the common-memory-type error. -/
theorem common_mem_type_loop_err (l : List BufferReq) :
    ∀ acc, l ≠ [] → l.foldl (fun acc r => acc &&& r.memoryTypeBits) acc = 0 →
      common_mem_type_loop acc l = .error "failed to find common memory type" := by
  induction l with
  | nil => intro acc h _; exact absurd rfl h
  | cons r rest ih =>
    intro acc _ h0
    by_cases hacc2 : acc &&& r.memoryTypeBits = 0
    · simp only [common_mem_type_loop, hacc2, if_true]
    · rw [List.foldl_cons] at h0
      have hrne : rest ≠ [] := by
        intro hnil
        rw [hnil] at h0
        simp only [List.foldl_nil] at h0
        exact hacc2 h0
      simp only [common_mem_type_loop, hacc2, if_false]
      exact ih _ hrne h0

/-- The early-exit loop on the full mask, phrased with
`common_memory_type`. -/
theorem common_mem_type_loop_eq_ok (reqs : List BufferReq)
    (hc : common_memory_type reqs ≠ 0) :
    common_mem_type_loop 0xFFFFFFFF reqs = .ok (common_memory_type reqs) := by
  unfold common_memory_type at *
  exact common_mem_type_loop_ok reqs 0xFFFFFFFF hc

/-- The early-exit loop error case, phrased with `common_memory_type`. -/
theorem common_mem_type_loop_eq_err (reqs : List BufferReq)
    (hne : reqs ≠ []) (hc : common_memory_type reqs = 0) :
    common_mem_type_loop 0xFFFFFFFF reqs =
      .error "failed to find common memory type" := by
  unfold common_memory_type at *
  exact common_mem_type_loop_err reqs 0xFFFFFFFF hne hc

/-- If no memory type from position `i` on satisfies the predicate, the
search loop throws. -/
theorem get_memory_type_index_from_err (supported required : Nat)
    (l : List MemoryType) :
    ∀ i, (∀ j t, l[j]? = some t →
        ¬(supported &&& 2 ^ (i + j) ≠ 0 ∧
          t.propertyFlags &&& required = required)) →
      get_memory_type_index_from supported required i l =
        .error "failed to get memory type" := by
  induction l with
  | nil => intro i _; rfl
  | cons t rest ih =>
    intro i h
    have h0 := h 0 t (by simp)
    rw [Nat.add_zero] at h0
    unfold get_memory_type_index_from
    rw [if_neg h0]
    apply ih
    intro j t' hj
    have hh := h (j + 1) t' (by simpa using hj)
    rwa [show i + (j + 1) = (i + 1) + j by omega] at hh

/-- A successful search from position `i` returns the first index at or
after `i` whose bit is set and whose flags contain the required ones. -/
theorem get_memory_type_index_from_ok (supported required : Nat)
    (l : List MemoryType) :
    ∀ i n, get_memory_type_index_from supported required i l = .ok n →
      i ≤ n ∧
      (∃ t, l[n - i]? = some t ∧
        (supported &&& 2 ^ n ≠ 0 ∧ t.propertyFlags &&& required = required)) ∧
      ∀ j, j < n - i → ∀ t', l[j]? = some t' →
        ¬(supported &&& 2 ^ (i + j) ≠ 0 ∧
          t'.propertyFlags &&& required = required) := by
  induction l with
  | nil =>
    intro i n h
    exact absurd h (by simp [get_memory_type_index_from])
  | cons t rest ih =>
    intro i n h
    unfold get_memory_type_index_from at h
    by_cases hP : supported &&& 2 ^ i ≠ 0 ∧
        t.propertyFlags &&& required = required
    · rw [if_pos hP] at h
      cases h
      refine ⟨Nat.le_refl i, ⟨t, by simp, hP⟩, ?_⟩
      intro j hj
      exact absurd hj (by omega)
    · rw [if_neg hP] at h
      obtain ⟨hle, ⟨t', ht', hPt'⟩, hmin⟩ := ih (i + 1) n h
      refine ⟨by omega, ⟨t', ?_, hPt'⟩, ?_⟩
      · rw [show n - i = (n - (i + 1)) + 1 by omega]
        simpa using ht'
      · intro j hj t'' hj'
        cases j with
        | zero =>
          rw [Nat.add_zero]
          have ht'' : t = t'' := by simpa using hj'
          rw [← ht'']
          exact hP
        | succ j' =>
          have hh := hmin j' (by omega) t'' (by simpa using hj')
          rwa [show i + (j' + 1) = (i + 1) + j' by omega]

/-- C3: `allocate_memory` fails with the "no common memory type" error
whenever the `&`-fold of the buffers' allowed-type masks is zero (and,
being a pure error return, creates no allocation); it fails with the
memory-type search error when the common mask is non-zero but no memory
type has its mask bit set together with the required property flags; and
on success the chosen memory type index is the lowest-indexed bit of the
common mask whose memory type satisfies the required properties. -/
theorem allocate_memory_memory_type_selection
    (mem_types : List MemoryType) (required : Nat) (reqs : List BufferReq)
    (hne : reqs ≠ []) :
    (common_memory_type reqs = 0 →
      allocate_memory mem_types required reqs =
        .error "failed to find common memory type") ∧
    (common_memory_type reqs ≠ 0 →
      (∀ i t, mem_types[i]? = some t →
        ¬((common_memory_type reqs).testBit i = true ∧
          t.propertyFlags &&& required = required)) →
      allocate_memory mem_types required reqs =
        .error "failed to get memory type") ∧
    (∀ p, allocate_memory mem_types required reqs = .ok p →
      ∃ t, mem_types[p.memTypeIndex]? = some t ∧
        (common_memory_type reqs).testBit p.memTypeIndex = true ∧
        t.propertyFlags &&& required = required ∧
        ∀ j, j < p.memTypeIndex → ∀ t', mem_types[j]? = some t' →
          ¬((common_memory_type reqs).testBit j = true ∧
            t'.propertyFlags &&& required = required)) := by
  refine ⟨?_, ?_, ?_⟩
  · intro h0
    simp [allocate_memory, common_mem_type_loop_eq_err reqs hne h0]
  · intro hc hno
    have herr : get_memory_type_index mem_types (common_memory_type reqs) required =
        .error "failed to get memory type" := by
      unfold get_memory_type_index
      apply get_memory_type_index_from_err
      intro j t hj
      rw [Nat.zero_add]
      intro hcontra
      exact hno j t hj ⟨(land_two_pow_ne_zero_iff _ j).mp hcontra.1, hcontra.2⟩
    simp [allocate_memory, common_mem_type_loop_eq_ok reqs hc, herr]
  · intro p hp
    obtain ⟨common, idx, last, h1, h2, h3, hpeq⟩ :=
      allocate_memory_ok_inversion mem_types required reqs p hp
    by_cases hc : common_memory_type reqs = 0
    · rw [common_mem_type_loop_eq_err reqs hne hc] at h1
      exact absurd h1 (by simp)
    · rw [common_mem_type_loop_eq_ok reqs hc] at h1
      have hcommon : common_memory_type reqs = common := by
        simpa using h1
      rw [← hcommon] at h2
      obtain ⟨hle, ⟨t, ht, hPt⟩, hmin⟩ :=
        get_memory_type_index_from_ok (common_memory_type reqs) required
          mem_types 0 idx h2
      have hidx : p.memTypeIndex = idx := by
        rw [hpeq]
      rw [Nat.sub_zero] at ht
      refine ⟨t, by rw [hidx]; exact ht,
        by rw [hidx]; exact (land_two_pow_ne_zero_iff _ idx).mp hPt.1,
        hPt.2, ?_⟩
      intro j hj t' hj' hcontra
      have hh := hmin j (by omega) t' hj'
      rw [Nat.zero_add] at hh
      exact hh ⟨(land_two_pow_ne_zero_iff _ j).mpr hcontra.1, hcontra.2⟩

/-- Witness for C3 exercising all three parts at concrete inputs: two
disjoint masks (1 and 2) give the common-mask error; mask 1 with a memory
type lacking the required flag 1 gives the search error; and masks 6 with
memory types [flags 0, flags 1] and required 1 succeed with the chosen
index 1, the lowest set bit of the common mask whose type qualifies. -/
theorem allocate_memory_memory_type_selection_witness :
    allocate_memory [⟨1⟩] 1 [⟨0, 4, 4, 1⟩, ⟨1, 4, 4, 2⟩] =
      .error "failed to find common memory type" ∧
    allocate_memory [⟨0⟩] 1 [⟨0, 4, 4, 1⟩] =
      .error "failed to get memory type" ∧
    ∃ t, ([⟨0⟩, ⟨1⟩] : List MemoryType)[(1 : Nat)]? = some t ∧
      (common_memory_type [⟨0, 4, 4, 6⟩, ⟨1, 4, 4, 6⟩]).testBit 1 = true ∧
      t.propertyFlags &&& 1 = 1 ∧
      ∀ j, j < 1 → ∀ t', ([⟨0⟩, ⟨1⟩] : List MemoryType)[j]? = some t' →
        ¬((common_memory_type [⟨0, 4, 4, 6⟩, ⟨1, 4, 4, 6⟩]).testBit j = true ∧
          t'.propertyFlags &&& 1 = 1) := by
  refine ⟨?_, ?_, ?_⟩
  · exact (allocate_memory_memory_type_selection [⟨1⟩] 1 [⟨0, 4, 4, 1⟩, ⟨1, 4, 4, 2⟩]
      (by decide)).1 (by decide)
  · refine (allocate_memory_memory_type_selection [⟨0⟩] 1 [⟨0, 4, 4, 1⟩]
      (by decide)).2.1 (by decide) ?_
    intro i t hit
    cases i with
    | zero =>
      have ht : (⟨0⟩ : MemoryType) = t := by simpa using hit
      subst ht
      intro hcon
      exact absurd hcon.2 (by decide)
    | succ i => exact absurd hit (by simp)
  · have h := (allocate_memory_memory_type_selection [⟨0⟩, ⟨1⟩] 1
      [⟨0, 4, 4, 6⟩, ⟨1, 4, 4, 6⟩] (by decide)).2.2
      { totalSize := 8, memTypeIndex := 1,
        perBuffer := [⟨0, 0, 4, 4⟩, ⟨1, 4, 4, 4⟩] } rfl
    exact h
